import Mathlib

/-!
Verification development for the retirement-planner engine
(`server.js`, latest revision).

The engine is embedded shallowly over `ℚ`: JavaScript `Number` arithmetic
is modelled as exact rational arithmetic, the module-level constant
`EPS = 1e-9` becomes the rational `1 / 1000000000`, and the mutable
per-year loop of `runProjection` becomes structural recursion carrying the
loop state (the three previous closing balances, the `nonrCleared` flag
and the `depletedEarly` flag) explicitly.  `toNum` is modelled as the
identity on the already-parsed rational value.
-/

set_option maxRecDepth 8000

namespace Planner

/-- The floating-point floor constant `EPS = 1e-9` from the source. -/
def EPS : ℚ := 1 / 1000000000

/-- Clamp used on the tax-free and taxable closing balances:
`if (end < EPS) end = 0`. -/
def clampEps (x : ℚ) : ℚ := if x < EPS then 0 else x

/-- Rate normalization from the source: `n > 1 ? n / 100 : n`
(a whole-number percentage above 1 is divided by 100). -/
def normalizeRate (n : ℚ) : ℚ := if 1 < n then n / 100 else n

/-- JavaScript `Math.round`: round half toward positive infinity. -/
def jsRound (q : ℚ) : Int := ⌊q + 1 / 2⌋

/-- The numeric inputs consumed by the engine, after `toNum` / `toInt` /
`normalizeRate` coercion.  `yearsToRetire` is clamped to be nonnegative in
the source (`Math.max(0, toInt(...))`), hence a `Nat`. -/
structure Params where
  currentAge : Int
  yearsToRetire : Nat
  incomeAnnual : ℚ
  inflationRate : ℚ
  rrspInitialBalance : ℚ
  rrspContribute : ℚ
  rrspRoi : ℚ
  tfsaInitialBalance : ℚ
  tfsaContribute : ℚ
  tfsaRoi : ℚ
  nonRegisteredInitialBalance : ℚ
  nonRegisteredRoi : ℚ
deriving DecidableEq

/-- One row pushed by `runProjection` for a simulated year. -/
structure YearRow where
  age : Int
  income : ℚ
  expense : ℚ
  rrspInit : ℚ
  rrspC : ℚ
  rrspW : ℚ
  rrspEnd : ℚ
  tfsaInit : ℚ
  tfsaC : ℚ
  tfsaW : ℚ
  tfsaEnd : ℚ
  nonrInit : ℚ
  nonrC : ℚ
  nonrW : ℚ
  nonrEnd : ℚ
deriving DecidableEq, Inhabited

/-- Loop-carried state of `runProjection`. -/
structure SimState where
  rrspEndPrev : ℚ
  tfsaEndPrev : ℚ
  nonrEndPrev : ℚ
  nonrCleared : Bool
  depletedEarly : Bool
deriving DecidableEq

/-- Result of the four per-year flow assignments
(tfsa contribution, tfsa withdrawal, nonr contribution, nonr withdrawal)
together with the updated depletion flag. -/
structure Alloc where
  tfsaC : ℚ
  tfsaW : ℚ
  nonrC : ℚ
  nonrW : ℚ
  depleted : Bool
deriving DecidableEq

/-- Pre-retirement flow rule of `runProjection` (source lines 148-167):
the taxable account balances income against
`expense + rrspC + tfsaC`; a shortfall is drawn from the taxable account
first, then from the tax-free account, and a residual shortfall beyond
`EPS` sets the depletion flag. -/
def preRetAlloc (income expense rrspC tfsaTarget tfsaInit nonrInit : ℚ)
    (dep : Bool) : Alloc :=
  let need := expense + rrspC + tfsaTarget
  if need ≤ income then ⟨tfsaTarget, 0, income - need, 0, dep⟩
  else
    let short0 := need - income
    let nonrW := min nonrInit short0
    let short1 := short0 - nonrW
    if EPS < short1 then
      let tfsaW := min (tfsaInit + tfsaTarget) short1
      ⟨tfsaTarget, tfsaW, 0, nonrW, if EPS < short1 - tfsaW then true else dep⟩
    else ⟨tfsaTarget, 0, 0, nonrW, dep⟩

/-- Retirement flow rule of `runProjection` (source lines 170-206):
`nonrNeed = expense + tfsaC - rrspW`; a surplus of the tax-deferred
withdrawal over `expense + tfsaC` flows into the taxable account, the
taxable account covers the need when it can (to within `EPS`), otherwise
it is emptied, the tax-free contribution is cut to what remains
affordable, and if expenses are still uncovered the tax-free account is
drawn and a residual shortfall beyond `EPS` sets the depletion flag. -/
def postRetAlloc (expense rrspW tfsaTarget tfsaInit nonrInit : ℚ)
    (dep : Bool) : Alloc :=
  let nonrNeed := expense + tfsaTarget - rrspW
  if nonrNeed ≤ 0 then ⟨tfsaTarget, 0, -nonrNeed, 0, dep⟩
  else if nonrNeed ≤ nonrInit + EPS then ⟨tfsaTarget, 0, 0, nonrNeed, dep⟩
  else
    let nonrW := nonrInit
    let covered := rrspW + nonrW
    if covered + EPS < expense then
      let gap := expense - covered
      let tfsaW := min tfsaInit gap
      ⟨0, tfsaW, 0, nonrW, if EPS < gap - tfsaW then true else dep⟩
    else ⟨min tfsaTarget (max 0 (nonrW + rrspW - expense)), 0, 0, nonrW, dep⟩

/-- The four per-year flow assignments of the `runProjection` loop body,
dispatching between the pre-retirement and retirement rules. -/
def yearStepAlloc (p : Params) (expensesBase rrspWFixed : ℚ) (t : Nat)
    (s : SimState) : Alloc :=
  let income := if t < p.yearsToRetire then p.incomeAnnual else 0
  let expense := expensesBase * (1 + p.inflationRate) ^ t
  let rrspC := if t < p.yearsToRetire then p.rrspContribute else 0
  let rrspW := if p.yearsToRetire ≤ t then rrspWFixed else 0
  let tfsaInit := if t = 0 then p.tfsaInitialBalance else s.tfsaEndPrev * (1 + p.tfsaRoi)
  let tfsaTarget := if s.nonrCleared then 0 else p.tfsaContribute
  let nonrInit := if t = 0 then p.nonRegisteredInitialBalance
    else s.nonrEndPrev * (1 + p.nonRegisteredRoi)
  if t < p.yearsToRetire then
    preRetAlloc income expense rrspC tfsaTarget tfsaInit nonrInit s.depletedEarly
  else
    postRetAlloc expense rrspW tfsaTarget tfsaInit nonrInit s.depletedEarly

/-- One iteration of the `runProjection` loop body (source lines 121-224),
producing the pushed row and the next loop state. -/
def yearStep (p : Params) (expensesBase rrspWFixed : ℚ) (t : Nat)
    (s : SimState) : YearRow × SimState :=
  let income := if t < p.yearsToRetire then p.incomeAnnual else 0
  let expense := expensesBase * (1 + p.inflationRate) ^ t
  let rrspInit := if t = 0 then p.rrspInitialBalance else s.rrspEndPrev * (1 + p.rrspRoi)
  let rrspC := if t < p.yearsToRetire then p.rrspContribute else 0
  let rrspW := if p.yearsToRetire ≤ t then rrspWFixed else 0
  let rrspEnd := rrspInit + rrspC - rrspW
  let tfsaInit := if t = 0 then p.tfsaInitialBalance else s.tfsaEndPrev * (1 + p.tfsaRoi)
  let nonrInit := if t = 0 then p.nonRegisteredInitialBalance
    else s.nonrEndPrev * (1 + p.nonRegisteredRoi)
  let a : Alloc := yearStepAlloc p expensesBase rrspWFixed t s
  let nonrEnd := clampEps (nonrInit + a.nonrC - a.nonrW)
  let cleared := if nonrEnd = 0 then true else s.nonrCleared
  let tfsaEnd := clampEps (tfsaInit + a.tfsaC - a.tfsaW)
  (⟨p.currentAge + (t : Int), income, expense, rrspInit, rrspC, rrspW, rrspEnd,
    tfsaInit, a.tfsaC, a.tfsaW, tfsaEnd, nonrInit, a.nonrC, a.nonrW, nonrEnd⟩,
   ⟨rrspEnd, tfsaEnd, nonrEnd, cleared, a.depleted⟩)

/-- The `runProjection` loop: `t` is the current year index, the second
`Nat` is the number of iterations left (`n - t`), and the result is the
list of pushed rows together with the final `depletedEarly` flag.  The
early `break` fires after pushing the row, when the depletion flag is set
and the current year is not the final year of the horizon. -/
def runRowsAux (p : Params) (eb rw : ℚ) (n : Nat) :
    Nat → Nat → SimState → List YearRow × Bool
  | _, 0, s => ([], s.depletedEarly)
  | t, r + 1, s =>
    let step := yearStep p eb rw t s
    if step.2.depletedEarly = true ∧ t + 1 < n then ([step.1], true)
    else
      let rest := runRowsAux p eb rw n (t + 1) r step.2
      (step.1 :: rest.1, rest.2)

/-- Initial loop state: the three `...EndPrev` accumulators start at the
initial balances and both flags start false. -/
def initState (p : Params) : SimState :=
  ⟨p.rrspInitialBalance, p.tfsaInitialBalance, p.nonRegisteredInitialBalance,
   false, false⟩

/-- Return value of `runProjection`. -/
structure ProjectionResult where
  rows : List YearRow
  depletedEarly : Bool
  endingTotal : ℚ
deriving DecidableEq

/-- The Year-State Simulator `runProjection(expensesBase, yearsToPlanLocal,
rrspWithdrawFixedUsed)` (source lines 111-233). -/
def runProjection (p : Params) (expensesBase : ℚ) (n : Nat) (rrspW : ℚ) :
    ProjectionResult :=
  let res := runRowsAux p expensesBase rrspW n 0 n (initState p)
  { rows := res.1
    depletedEarly := res.2
    endingTotal :=
      match res.1.getLast? with
      | some l => l.rrspEnd + l.tfsaEnd + l.nonrEnd
      | none => 0 }

/-- Inner loop of the `simulate` closure of `solveRRSPWithdrawal`:
`t` is the year index, the first `Nat` argument after it the number of
iterations left, and the last argument the running `endBalPrev`. -/
def rrspSimAux (yearsToRetire : Nat) (b0 c roi w : ℚ) :
    Nat → Nat → ℚ → ℚ
  | _, 0, endPrev => endPrev
  | t, r + 1, endPrev =>
    let init := if t = 0 then b0 else endPrev * (1 + roi)
    let contrib := if t < yearsToRetire then c else 0
    let withdraw := if yearsToRetire ≤ t then w else 0
    rrspSimAux yearsToRetire b0 c roi w (t + 1) r (init + contrib - withdraw)

/-- The `simulate(W)` closure of `solveRRSPWithdrawal`: final tax-deferred
balance after `n` years with constant retirement withdrawal `w`. -/
def rrspSimulate (yearsToRetire n : Nat) (b0 c roi w : ℚ) : ℚ :=
  rrspSimAux yearsToRetire b0 c roi w 0 n b0

/-- The Tax-Deferred Withdrawal Solver `solveRRSPWithdrawal`
(source lines 42-67): probe the linear map at `W = 0` and `W = 1` and
return the root, clamped to be nonnegative, or 0 on a non-positive
slope. -/
def solveRRSPWithdrawal (yearsToRetire n : Nat) (b0 c roi : ℚ) : ℚ :=
  let a := rrspSimulate yearsToRetire n b0 c roi 0
  let a1 := rrspSimulate yearsToRetire n b0 c roi 1
  let b := a - a1
  if 0 < b then max 0 (a / b) else 0

/-- `solveRrspWForHorizon(N)` from the source. -/
def solveRrspWForHorizon (p : Params) (n : Nat) : ℚ :=
  solveRRSPWithdrawal p.yearsToRetire n p.rrspInitialBalance
    p.rrspContribute p.rrspRoi

/-- Depletion test used by the Maximum-Spending Solver: whether a
projection at expense base `eb` reports `depletedEarly`. -/
def deplete (p : Params) (n : Nat) (rw eb : ℚ) : Bool :=
  (runProjection p eb n rw).depletedEarly

/-- Sum of the three initial balances (seed of the bisection bracket). -/
def sumInit (p : Params) : ℚ :=
  p.rrspInitialBalance + p.tfsaInitialBalance + p.nonRegisteredInitialBalance

/-- The bracket-expansion loop of `solveExpenses`:
`while (!deplete(hi) && hi < 1e9) hi *= 2`, written with explicit fuel.
Since the starting `hi` is at least 1000, at most 20 doublings can occur
before the `hi < 1e9` guard fails, so any fuel of at least 21 reproduces
the loop exactly. -/
def expandHi (p : Params) (n : Nat) (rw : ℚ) : Nat → ℚ → ℚ
  | 0, hi => hi
  | f + 1, hi =>
    if deplete p n rw hi = false ∧ hi < 1000000000 then
      expandHi p n rw f (hi * 2)
    else hi

/-- The 50-iteration bisection of `solveExpenses`: a depleting midpoint
becomes the new `hi`, a surviving midpoint the new `lo`. -/
def bisectIter (p : Params) (n : Nat) (rw : ℚ) : Nat → ℚ × ℚ → ℚ × ℚ
  | 0, lh => lh
  | k + 1, lh =>
    let mid := (lh.1 + lh.2) / 2
    if deplete p n rw mid then bisectIter p n rw k (lh.1, mid)
    else bisectIter p n rw k (mid, lh.2)

/-- The final bisection lower bound `lo` of the Maximum-Spending Solver
(source lines 300-321), with the withdrawal resolved for the horizon. -/
def solveExpensesLo (p : Params) (n : Nat) : ℚ :=
  let rw := solveRrspWForHorizon p n
  let hi0 := max 1000 (sumInit p * 2)
  (bisectIter p n rw 50 (0, expandHi p n rw 64 hi0)).1

/-- `solvedInitialExpense = Math.round(lo)` (source line 323; note the
source assigns this before the `let solvedInitialExpense = null`
declaration on line 326 executes, which in JavaScript raises a
ReferenceError at runtime in this mode — the value modelled here is the
one the assignment computes). -/
def solvedInitialExpense (p : Params) (n : Nat) : Int :=
  jsRound (solveExpensesLo p n)

/-- `simulateGivenN`: number of rows actually survived when simulating
horizon `n` with its own resolved withdrawal. -/
def yearsSurvived (p : Params) (eb : ℚ) (n : Nat) : Nat :=
  (runProjection p eb n (solveRrspWForHorizon p n)).rows.length

/-- The fixed-point loop of the Maximum-Horizon Solver (source lines
256-287): up to 25 iterations of `N -> yearsSurvived(N)`, stopping at a
fixed point (or at 0, or returning `max 1 N` when the budget runs out). -/
def findMaxYearsAux (p : Params) (eb : ℚ) : Nat → Nat → Nat
  | 0, nCur => max 1 nCur
  | k + 1, nCur =>
    let ys := yearsSurvived p eb nCur
    if ys = nCur then nCur
    else if ys = 0 then 0
    else findMaxYearsAux p eb k ys

/-- `findMaxYears` mode: fixed-point iteration started at the
`MAX_YEARS_CAP = 120` candidate. -/
def findMaxYears (p : Params) (eb : ℚ) : Nat := findMaxYearsAux p eb 25 120

/-- Pure state iterator: the loop state reached after `k` further
iterations of `yearStep` starting from year `t` in state `s`, ignoring
the early break (used to speak about the year in which depletion
occurred). -/
def stepFrom (p : Params) (eb rw : ℚ) (t : Nat) (s : SimState) : Nat → SimState
  | 0 => s
  | k + 1 => (yearStep p eb rw (t + k) (stepFrom p eb rw t s k)).2

/-- The expanded upper bracket end of the Maximum-Spending Solver. -/
def solveHi (p : Params) (n : Nat) : ℚ :=
  expandHi p n (solveRrspWForHorizon p n) 64 (max 1000 (sumInit p * 2))

/-- The final bisection bracket of the Maximum-Spending Solver. -/
def solvePair (p : Params) (n : Nat) : ℚ × ℚ :=
  bisectIter p n (solveRrspWForHorizon p n) 50 (0, solveHi p n)

/-- Example input: retirement from year 0, tax-deferred balance 100 over a
2-year horizon (so the resolved constant withdrawal is 50), expense base
10, tax-free contribution target 45, all other balances and rates 0. -/
def pA : Params := ⟨0, 0, 0, 0, 100, 0, 0, 0, 45, 0, 0, 0⟩

/-- Example input: a single taxable account holding 999.6 over a 1-year
horizon, everything else 0 (used against the Maximum-Spending Solver). -/
def pB : Params := ⟨0, 0, 0, 0, 0, 0, 0, 0, 0, 0, 9996 / 10, 0⟩

/-- Example input: taxable initial balance -100 (the input normalizer
accepts negative amounts), everything else 0. -/
def pC : Params := ⟨0, 0, 0, 0, 0, 0, 0, 0, 0, 0, -100, 0⟩

/-- Example input: tax-free initial balance `EPS / 2` growing at 100% per
year, no flows, everything else 0. -/
def pD : Params := ⟨0, 0, 0, 0, 0, 0, 0, 1 / 2000000000, 0, 1, 0, 0⟩

/-- Example input: tax-deferred initial balance `EPS / 2`, retirement
after the 1-year horizon ends, everything else 0. -/
def pE : Params := ⟨0, 1, 0, 0, 1 / 2000000000, 0, 0, 0, 0, 0, 0, 0⟩

/-- Example input: every field 0. -/
def pZ : Params := ⟨0, 0, 0, 0, 0, 0, 0, 0, 0, 0, 0, 0⟩

/-- Example input: a single tax-free account holding 100 at a 5% return,
no flows anywhere. -/
def pG : Params := ⟨0, 0, 0, 0, 0, 0, 0, 100, 0, 1 / 20, 0, 0⟩

/-- First row of the projection of `pA` at expense base 10, horizon 2,
fixed withdrawal 50. -/
def rowA0 : YearRow := (runProjection pA 10 2 50).rows.headI

/-- Second row of the projection of `pA` at expense base 10, horizon 2,
fixed withdrawal 50. -/
def rowA1 : YearRow := (runProjection pA 10 2 50).rows.getD 1 default

/-- First row of the projection of `pC` at expense base 0, horizon 1,
fixed withdrawal 0. -/
def rowC0 : YearRow := (runProjection pC 0 1 0).rows.headI

/-- Rows of the projection of `pD` at expense base 0, horizon 3, fixed
withdrawal 0. -/
def rowsD : List YearRow := (runProjection pD 0 3 0).rows

/-- Third row of the projection of `pD`. -/
def rowD2 : YearRow := rowsD.getD 2 default

/-- First row of the projection of `pE` at expense base 0, horizon 1,
fixed withdrawal 0. -/
def rowE0 : YearRow := (runProjection pE 0 1 0).rows.headI

/-! ### Basic facts about the clamp and the per-year step -/

theorem EPS_pos : 0 < EPS := by norm_num [EPS]

theorem clampEps_nonneg (x : ℚ) : 0 ≤ clampEps x := by
  unfold clampEps
  split
  · exact le_rfl
  · next h => linarith [EPS_pos, not_lt.mp h]

theorem clampEps_eq_zero_of_lt {x : ℚ} (h : clampEps x < EPS) : clampEps x = 0 := by
  by_cases hx : x < EPS
  · simp [clampEps, hx]
  · rw [clampEps, if_neg hx] at h
    exact absurd h hx

theorem abs_clampEps_sub {x : ℚ} (h : -EPS ≤ x) : |clampEps x - x| ≤ EPS := by
  unfold clampEps
  split
  · next hx =>
    rw [zero_sub, abs_neg]
    exact abs_le.mpr ⟨h, le_of_lt hx⟩
  · simp [EPS_pos.le]

theorem yearStep_row_rrspEnd (p : Params) (eb rw : ℚ) (t : Nat) (s : SimState) :
    ((yearStep p eb rw t s).1).rrspEnd =
      ((yearStep p eb rw t s).1).rrspInit + ((yearStep p eb rw t s).1).rrspC -
        ((yearStep p eb rw t s).1).rrspW := rfl

theorem yearStep_row_tfsaEnd (p : Params) (eb rw : ℚ) (t : Nat) (s : SimState) :
    ((yearStep p eb rw t s).1).tfsaEnd =
      clampEps (((yearStep p eb rw t s).1).tfsaInit + ((yearStep p eb rw t s).1).tfsaC -
        ((yearStep p eb rw t s).1).tfsaW) := rfl

theorem yearStep_row_nonrEnd (p : Params) (eb rw : ℚ) (t : Nat) (s : SimState) :
    ((yearStep p eb rw t s).1).nonrEnd =
      clampEps (((yearStep p eb rw t s).1).nonrInit + ((yearStep p eb rw t s).1).nonrC -
        ((yearStep p eb rw t s).1).nonrW) := rfl

theorem yearStep_row_rrspInit (p : Params) (eb rw : ℚ) (t : Nat) (s : SimState) :
    ((yearStep p eb rw t s).1).rrspInit =
      if t = 0 then p.rrspInitialBalance else s.rrspEndPrev * (1 + p.rrspRoi) := rfl

theorem yearStep_row_tfsaInit (p : Params) (eb rw : ℚ) (t : Nat) (s : SimState) :
    ((yearStep p eb rw t s).1).tfsaInit =
      if t = 0 then p.tfsaInitialBalance else s.tfsaEndPrev * (1 + p.tfsaRoi) := rfl

theorem yearStep_row_nonrInit (p : Params) (eb rw : ℚ) (t : Nat) (s : SimState) :
    ((yearStep p eb rw t s).1).nonrInit =
      if t = 0 then p.nonRegisteredInitialBalance
      else s.nonrEndPrev * (1 + p.nonRegisteredRoi) := rfl

theorem yearStep_state_rrsp (p : Params) (eb rw : ℚ) (t : Nat) (s : SimState) :
    ((yearStep p eb rw t s).2).rrspEndPrev = ((yearStep p eb rw t s).1).rrspEnd := rfl

theorem yearStep_state_tfsa (p : Params) (eb rw : ℚ) (t : Nat) (s : SimState) :
    ((yearStep p eb rw t s).2).tfsaEndPrev = ((yearStep p eb rw t s).1).tfsaEnd := rfl

theorem yearStep_state_nonr (p : Params) (eb rw : ℚ) (t : Nat) (s : SimState) :
    ((yearStep p eb rw t s).2).nonrEndPrev = ((yearStep p eb rw t s).1).nonrEnd := rfl

theorem yearStep_state_cleared (p : Params) (eb rw : ℚ) (t : Nat) (s : SimState) :
    ((yearStep p eb rw t s).2).nonrCleared =
      if ((yearStep p eb rw t s).1).nonrEnd = 0 then true else s.nonrCleared := rfl

/-! ### Claim C8: rate normalization -/

/-- C8: for every raw rate value, a value greater than 1 is divided by
100 and any other value is used unchanged; the result lies in the unit
interval provided the raw value lies in `[0, 100]` (amended: the raw
value 150 normalizes to 1.5, outside the unit interval). -/
theorem claim8_normalizeRate (x : ℚ) :
    (1 < x → normalizeRate x = x / 100) ∧
    (x ≤ 1 → normalizeRate x = x) ∧
    (0 ≤ x → x ≤ 100 → 0 ≤ normalizeRate x ∧ normalizeRate x ≤ 1) := by
  unfold normalizeRate
  by_cases h : 1 < x
  · rw [if_pos h]
    refine ⟨fun _ => rfl, fun hle => absurd h (not_lt.mpr hle),
      fun h0 h100 => ⟨by positivity, ?_⟩⟩
    rw [div_le_one (by norm_num)]
    exact h100
  · rw [if_neg h]
    exact ⟨fun h1 => absurd h1 h, fun _ => rfl, fun h0 _ => ⟨h0, not_lt.mp h⟩⟩

/-- C8 refutation: the raw rate 150 normalizes to 1.5, which is not a
fraction in `[0, 1]`. -/
theorem claim8_counterexample :
    normalizeRate 150 = 3 / 2 ∧ ¬ (normalizeRate 150 ≤ 1) := by
  norm_num [normalizeRate]

/-- C8 witness at the raw rate 1/2. -/
theorem claim8_witness : normalizeRate (1 / 2) = 1 / 2 :=
  (claim8_normalizeRate (1 / 2)).2.1 (by norm_num)

/-! ### Claim C1: the Tax-Deferred Withdrawal Solver -/

theorem rrspSimAux_affine (y : Nat) (b0 c roi w w1 cm : ℚ) :
    ∀ r t e e1,
      rrspSimAux y b0 c roi (w + cm * (w1 - w)) t r (e + cm * (e1 - e)) =
        rrspSimAux y b0 c roi w t r e +
          cm * (rrspSimAux y b0 c roi w1 t r e1 - rrspSimAux y b0 c roi w t r e) := by
  intro r
  induction r with
  | zero => intro t e e1; simp [rrspSimAux]
  | succ r ih =>
    intro t e e1
    simp only [rrspSimAux]
    have hinit : (if t = 0 then b0 else (e + cm * (e1 - e)) * (1 + roi)) =
        (if t = 0 then b0 else e * (1 + roi)) +
          cm * ((if t = 0 then b0 else e1 * (1 + roi)) -
            (if t = 0 then b0 else e * (1 + roi))) := by
      split <;> ring
    have hwd : (if y ≤ t then w + cm * (w1 - w) else 0) =
        (if y ≤ t then w else 0) + cm * ((if y ≤ t then w1 else 0) -
          (if y ≤ t then w else 0)) := by
      split <;> ring
    rw [hinit, hwd]
    have harg : (if t = 0 then b0 else e * (1 + roi)) +
          cm * ((if t = 0 then b0 else e1 * (1 + roi)) -
            (if t = 0 then b0 else e * (1 + roi))) +
          (if t < y then c else 0) -
          ((if y ≤ t then w else 0) + cm * ((if y ≤ t then w1 else 0) -
            (if y ≤ t then w else 0))) =
        ((if t = 0 then b0 else e * (1 + roi)) + (if t < y then c else 0) -
          (if y ≤ t then w else 0)) +
          cm * (((if t = 0 then b0 else e1 * (1 + roi)) + (if t < y then c else 0) -
            (if y ≤ t then w1 else 0)) -
            ((if t = 0 then b0 else e * (1 + roi)) + (if t < y then c else 0) -
              (if y ≤ t then w else 0))) := by ring
    rw [harg]
    exact ih (t + 1) _ _

theorem rrspSimulate_affine (y n : Nat) (b0 c roi w : ℚ) :
    rrspSimulate y n b0 c roi w =
      rrspSimulate y n b0 c roi 0 +
        w * (rrspSimulate y n b0 c roi 1 - rrspSimulate y n b0 c roi 0) := by
  have h := rrspSimAux_affine y b0 c roi 0 1 w n 0 b0 b0
  unfold rrspSimulate
  have hw : (0 : ℚ) + w * (1 - 0) = w := by ring
  have hb : b0 + w * (b0 - b0) = b0 := by ring
  rw [hw, hb] at h
  exact h

/-- C1: for the two probe balances `a0` (at `W = 0`) and `a1` (at
`W = 1`), the solver returns `max 0 (a0 / (a0 - a1))` when the slope
`a0 - a1` is positive and `0` when it is not, and the result is always
nonnegative; simulating with the returned withdrawal drives the final
balance exactly to zero when the slope is positive and additionally
`a0` is nonnegative (amended: when `a0` is negative the clamp to 0 makes
the final balance equal `a0` itself, not zero). -/
theorem claim1_withdrawal_solver (y n : Nat) (b0 c roi : ℚ) :
    0 ≤ solveRRSPWithdrawal y n b0 c roi ∧
    (rrspSimulate y n b0 c roi 0 - rrspSimulate y n b0 c roi 1 ≤ 0 →
      solveRRSPWithdrawal y n b0 c roi = 0) ∧
    (0 < rrspSimulate y n b0 c roi 0 - rrspSimulate y n b0 c roi 1 →
      solveRRSPWithdrawal y n b0 c roi =
        max 0 (rrspSimulate y n b0 c roi 0 /
          (rrspSimulate y n b0 c roi 0 - rrspSimulate y n b0 c roi 1))) ∧
    (0 < rrspSimulate y n b0 c roi 0 - rrspSimulate y n b0 c roi 1 →
      0 ≤ rrspSimulate y n b0 c roi 0 →
      rrspSimulate y n b0 c roi (solveRRSPWithdrawal y n b0 c roi) = 0) := by
  have hsolve : solveRRSPWithdrawal y n b0 c roi =
      if 0 < rrspSimulate y n b0 c roi 0 - rrspSimulate y n b0 c roi 1 then
        max 0 (rrspSimulate y n b0 c roi 0 /
          (rrspSimulate y n b0 c roi 0 - rrspSimulate y n b0 c roi 1))
      else 0 := rfl
  refine ⟨?_, fun h => ?_, fun h => ?_, fun h h0 => ?_⟩
  · rw [hsolve]
    split
    · exact le_max_left 0 _
    · exact le_rfl
  · rw [hsolve, if_neg (not_lt.mpr h)]
  · rw [hsolve, if_pos h]
  · have hW : solveRRSPWithdrawal y n b0 c roi =
        rrspSimulate y n b0 c roi 0 /
          (rrspSimulate y n b0 c roi 0 - rrspSimulate y n b0 c roi 1) := by
      rw [hsolve, if_pos h]
      exact max_eq_right (div_nonneg h0 (le_of_lt h))
    rw [hW, rrspSimulate_affine y n b0 c roi]
    have hne : rrspSimulate y n b0 c roi 0 - rrspSimulate y n b0 c roi 1 ≠ 0 :=
      ne_of_gt h
    field_simp
    ring

/-- C1 refutation: with a tax-deferred initial balance of -100 (horizon
1, immediate retirement, zero rate) the slope is positive, the clamp
returns `W = 0`, and the simulated final balance is -100: not within
`EPS` of zero as the claim states. -/
theorem claim1_counterexample :
    0 < rrspSimulate 0 1 (-100) 0 0 0 - rrspSimulate 0 1 (-100) 0 0 1 ∧
    solveRRSPWithdrawal 0 1 (-100) 0 0 = 0 ∧
    rrspSimulate 0 1 (-100) 0 0 (solveRRSPWithdrawal 0 1 (-100) 0 0) = -100 ∧
    ¬ |rrspSimulate 0 1 (-100) 0 0 (solveRRSPWithdrawal 0 1 (-100) 0 0)| ≤ EPS := by
  refine ⟨by with_unfolding_all decide, by with_unfolding_all decide,
    by with_unfolding_all decide, ?_⟩
  rw [show rrspSimulate 0 1 (-100) 0 0 (solveRRSPWithdrawal 0 1 (-100) 0 0) =
    (-100 : ℚ) from by with_unfolding_all decide]
  rw [abs_of_nonpos (by norm_num)]
  norm_num [EPS]

/-- C1 witness: balance 100, horizon 1, immediate retirement gives
`W = 100` and a final simulated balance of exactly 0. -/
theorem claim1_witness :
    rrspSimulate 0 1 100 0 0 (solveRRSPWithdrawal 0 1 100 0 0) = 0 :=
  (claim1_withdrawal_solver 0 1 100 0 0).2.2.2 (by with_unfolding_all decide)
    (by with_unfolding_all decide)

/-! ### Infrastructure for the projection loop -/

theorem runProjection_rows (p : Params) (eb : ℚ) (n : Nat) (rw : ℚ) :
    (runProjection p eb n rw).rows = (runRowsAux p eb rw n 0 n (initState p)).1 := rfl

theorem runProjection_flag (p : Params) (eb : ℚ) (n : Nat) (rw : ℚ) :
    (runProjection p eb n rw).depletedEarly =
      (runRowsAux p eb rw n 0 n (initState p)).2 := rfl

theorem stepFrom_succ (p : Params) (eb rw : ℚ) (t : Nat) (s : SimState) (k : Nat) :
    stepFrom p eb rw t s (k + 1) =
      (yearStep p eb rw (t + k) (stepFrom p eb rw t s k)).2 := rfl

theorem stepFrom_shift (p : Params) (eb rw : ℚ) (t : Nat) (s : SimState) :
    ∀ k, stepFrom p eb rw (t + 1) ((yearStep p eb rw t s).2) k =
      stepFrom p eb rw t s (k + 1) := by
  intro k
  induction k with
  | zero => rfl
  | succ k ih =>
    rw [stepFrom_succ, ih, stepFrom_succ, show t + 1 + k = t + (k + 1) from by omega]
    rfl

theorem runRowsAux_getq (p : Params) (eb rw : ℚ) (n : Nat) :
    ∀ r t s i, i < ((runRowsAux p eb rw n t r s).1).length →
      ((runRowsAux p eb rw n t r s).1).get? i =
        some (yearStep p eb rw (t + i) (stepFrom p eb rw t s i)).1 := by
  intro r
  induction r with
  | zero =>
    intro t s i h
    simp [runRowsAux] at h
  | succ r ih =>
    intro t s i h
    simp only [runRowsAux] at h ⊢
    split at h <;> split <;> rename_i h1 h2
    · have hi : i = 0 := by
        simp at h
        omega
      subst hi
      simp [stepFrom]
    · exact absurd h1 h2
    · exact absurd h2 h1
    · cases i with
      | zero => simp [stepFrom]
      | succ i =>
        have h' : i < ((runRowsAux p eb rw n (t + 1) r (yearStep p eb rw t s).2).1).length := by
          simp at h
          omega
        have hget : ((yearStep p eb rw t s).1 ::
              (runRowsAux p eb rw n (t + 1) r (yearStep p eb rw t s).2).1).get? (i + 1) =
            ((runRowsAux p eb rw n (t + 1) r (yearStep p eb rw t s).2).1).get? i := rfl
        rw [hget, ih (t + 1) (yearStep p eb rw t s).2 i h', stepFrom_shift,
          show t + 1 + i = t + (i + 1) from by omega]

theorem runRowsAux_get (p : Params) (eb rw : ℚ) (n : Nat) (r t : Nat) (s : SimState)
    (i : Nat) (h : i < ((runRowsAux p eb rw n t r s).1).length) :
    ((runRowsAux p eb rw n t r s).1).get ⟨i, h⟩ =
      (yearStep p eb rw (t + i) (stepFrom p eb rw t s i)).1 := by
  have h1 := runRowsAux_getq p eb rw n r t s i h
  have h2 := List.get?_eq_get h
  rw [h1] at h2
  exact (Option.some.inj h2).symm

theorem rows_get (p : Params) (eb : ℚ) (n : Nat) (rw : ℚ) (i : Nat)
    (h : i < (runProjection p eb n rw).rows.length) :
    (runProjection p eb n rw).rows.get ⟨i, h⟩ =
      (yearStep p eb rw i (stepFrom p eb rw 0 (initState p) i)).1 := by
  have := runRowsAux_get p eb rw n n 0 (initState p) i h
  simpa using this

theorem mem_rows_imp (p : Params) (eb rw : ℚ) (n : Nat) :
    ∀ r t s row, row ∈ (runRowsAux p eb rw n t r s).1 →
      ∃ u us, row = (yearStep p eb rw u us).1 := by
  intro r
  induction r with
  | zero =>
    intro t s row h
    simp [runRowsAux] at h
  | succ r ih =>
    intro t s row h
    simp only [runRowsAux] at h
    split at h
    · simp at h
      exact ⟨t, s, h⟩
    · simp only [List.mem_cons] at h
      rcases h with h0 | h1
      · exact ⟨t, s, h0⟩
      · exact ih (t + 1) (yearStep p eb rw t s).2 row h1

/-! ### Claim C7: the epsilon floor on closing balances -/

/-- C7 (amended): the tax-free and taxable closing balances are clamped:
they are always nonnegative and never simultaneously below `EPS` and
nonzero.  The tax-deferred closing balance carries no such floor (see the
refutation below). -/
theorem claim7_epsilon_floor (p : Params) (eb : ℚ) (n : Nat) (rw : ℚ) :
    ∀ row ∈ (runProjection p eb n rw).rows,
      0 ≤ row.tfsaEnd ∧ 0 ≤ row.nonrEnd ∧
      (row.tfsaEnd < EPS → row.tfsaEnd = 0) ∧
      (row.nonrEnd < EPS → row.nonrEnd = 0) := by
  intro row hrow
  rw [runProjection_rows] at hrow
  obtain ⟨u, us, rfl⟩ := mem_rows_imp p eb rw n n 0 (initState p) row hrow
  refine ⟨?_, ?_, fun h => ?_, fun h => ?_⟩
  · rw [yearStep_row_tfsaEnd]
    exact clampEps_nonneg _
  · rw [yearStep_row_nonrEnd]
    exact clampEps_nonneg _
  · rw [yearStep_row_tfsaEnd] at h ⊢
    exact clampEps_eq_zero_of_lt h
  · rw [yearStep_row_nonrEnd] at h ⊢
    exact clampEps_eq_zero_of_lt h

/-- C7 refutation: with a tax-deferred balance of `EPS / 2` and no
retirement year inside the 1-year horizon (solver returns withdrawal 0),
the produced row has a tax-deferred closing balance of `EPS / 2`: below
`EPS` yet nonzero, because the source never floors `rrspEnd`. -/
theorem claim7_counterexample :
    rowE0.rrspEnd = 1 / 2000000000 ∧ rowE0.rrspEnd < EPS ∧ rowE0.rrspEnd ≠ 0 ∧
    solveRrspWForHorizon pE 1 = 0 ∧ rowE0 ∈ (runProjection pE 0 1 0).rows := by
  norm_num [rowE0, pE, runProjection, runRowsAux, yearStep, yearStepAlloc, preRetAlloc, postRetAlloc,
    clampEps, initState, EPS, solveRrspWForHorizon, solveRRSPWithdrawal, rrspSimulate,
    rrspSimAux]

/-- C7 witness on the run of `pE`: the first row's tax-free closing
balance is below `EPS`, and the theorem floors it to zero. -/
theorem claim7_witness : rowE0.tfsaEnd = 0 :=
  (claim7_epsilon_floor pE 0 1 0 rowE0 (by
    norm_num [rowE0, pE, runProjection, runRowsAux, yearStep, yearStepAlloc, preRetAlloc, postRetAlloc,
      clampEps, initState, EPS])).2.2.1
    (by
      norm_num [rowE0, pE, runProjection, runRowsAux, yearStep, yearStepAlloc, preRetAlloc, postRetAlloc,
        clampEps, initState, EPS])

/-! ### Claim C9: clearing the taxable account suppresses the tax-free target -/

theorem preRetAlloc_tfsaC (income e c T fi ni : ℚ) (d : Bool) :
    (preRetAlloc income e c T fi ni d).tfsaC = T := by
  simp only [preRetAlloc]
  split_ifs <;> rfl

theorem postRetAlloc_tfsaC_zero (e w fi ni : ℚ) (d : Bool) :
    (postRetAlloc e w 0 fi ni d).tfsaC = 0 := by
  simp only [postRetAlloc]
  split_ifs <;> first
    | rfl
    | exact min_eq_left (le_max_left 0 _)

theorem yearStep_cleared_mono (p : Params) (eb rw : ℚ) (t : Nat) (s : SimState)
    (h : s.nonrCleared = true) : ((yearStep p eb rw t s).2).nonrCleared = true := by
  rw [yearStep_state_cleared]
  split
  · rfl
  · exact h

theorem yearStep_cleared_of_nonrEnd (p : Params) (eb rw : ℚ) (t : Nat) (s : SimState)
    (h : ((yearStep p eb rw t s).1).nonrEnd = 0) :
    ((yearStep p eb rw t s).2).nonrCleared = true := by
  rw [yearStep_state_cleared, if_pos h]

theorem yearStep_cleared_tfsaC (p : Params) (eb rw : ℚ) (t : Nat) (s : SimState)
    (h : s.nonrCleared = true) : ((yearStep p eb rw t s).1).tfsaC = 0 := by
  show (if t < p.yearsToRetire then
      preRetAlloc (if t < p.yearsToRetire then p.incomeAnnual else 0)
        (eb * (1 + p.inflationRate) ^ t)
        (if t < p.yearsToRetire then p.rrspContribute else 0)
        (if s.nonrCleared then 0 else p.tfsaContribute)
        (if t = 0 then p.tfsaInitialBalance else s.tfsaEndPrev * (1 + p.tfsaRoi))
        (if t = 0 then p.nonRegisteredInitialBalance
          else s.nonrEndPrev * (1 + p.nonRegisteredRoi)) s.depletedEarly
    else
      postRetAlloc (eb * (1 + p.inflationRate) ^ t)
        (if p.yearsToRetire ≤ t then rw else 0)
        (if s.nonrCleared then 0 else p.tfsaContribute)
        (if t = 0 then p.tfsaInitialBalance else s.tfsaEndPrev * (1 + p.tfsaRoi))
        (if t = 0 then p.nonRegisteredInitialBalance
          else s.nonrEndPrev * (1 + p.nonRegisteredRoi)) s.depletedEarly).tfsaC = 0
  rw [h]
  split
  · rw [if_pos rfl, preRetAlloc_tfsaC]
  · rw [if_pos rfl, postRetAlloc_tfsaC_zero]

theorem stepFrom_cleared_mono (p : Params) (eb rw : ℚ) (s : SimState) (j : Nat) :
    ∀ k, j ≤ k → (stepFrom p eb rw 0 s j).nonrCleared = true →
      (stepFrom p eb rw 0 s k).nonrCleared = true := by
  intro k
  induction k with
  | zero =>
    intro hjk h
    have hj : j = 0 := by omega
    subst hj
    exact h
  | succ k ih =>
    intro hjk h
    by_cases hj : j = k + 1
    · subst hj
      exact h
    · rw [stepFrom_succ]
      exact yearStep_cleared_mono _ _ _ _ _ (ih (by omega) h)

/-- C9 (amended): once the taxable account's closing balance reaches zero
in some year, the TAX-FREE account's contribution is zero in every
subsequent year of that run (the flag is never reset).  The taxable
account's own contribution is not suppressed: it may still receive the
tax-deferred surplus (see the refutation below). -/
theorem claim9_tfsa_target_suppressed (p : Params) (eb : ℚ) (n : Nat) (rw : ℚ)
    (i j : Nat) (hi : i < (runProjection p eb n rw).rows.length)
    (hj : j < (runProjection p eb n rw).rows.length) (hij : i < j)
    (hz : ((runProjection p eb n rw).rows.get ⟨i, hi⟩).nonrEnd = 0) :
    ((runProjection p eb n rw).rows.get ⟨j, hj⟩).tfsaC = 0 := by
  rw [rows_get] at hz ⊢
  have h1 : (stepFrom p eb rw 0 (initState p) (i + 1)).nonrCleared = true := by
    rw [stepFrom_succ, Nat.zero_add]
    exact yearStep_cleared_of_nonrEnd _ _ _ _ _ hz
  have h2 : (stepFrom p eb rw 0 (initState p) j).nonrCleared = true :=
    stepFrom_cleared_mono _ _ _ _ (i + 1) j (by omega) h1
  exact yearStep_cleared_tfsaC _ _ _ _ _ h2

/-- C9 refutation: in the run of `pA` (expense 10, resolved withdrawal
50), the taxable account clears in year 0, yet in year 1 it receives the
tax-deferred surplus 40 as a contribution: the TAXABLE contribution is
not suppressed after clearing, only the tax-free target is. -/
theorem claim9_counterexample :
    rowA0.nonrEnd = 0 ∧ rowA1.nonrC = 40 ∧ rowA1.nonrC ≠ 0 ∧
    solveRrspWForHorizon pA 2 = 50 := by
  norm_num [rowA0, rowA1, pA, runProjection, runRowsAux, yearStep, yearStepAlloc, preRetAlloc,
    postRetAlloc, clampEps, initState, EPS, solveRrspWForHorizon, solveRRSPWithdrawal,
    rrspSimulate, rrspSimAux]

/-- C9 witness on the run of `pA`: year 0 clears the taxable account, so
year 1's tax-free contribution is zero. -/
theorem claim9_witness :
    (((runProjection pA 10 2 50).rows).get ⟨1, by
      norm_num [pA, runProjection, runRowsAux, yearStep, yearStepAlloc, preRetAlloc, postRetAlloc,
        clampEps, initState, EPS]⟩).tfsaC = 0 :=
  claim9_tfsa_target_suppressed pA 10 2 50 0 1
    (by
      norm_num [pA, runProjection, runRowsAux, yearStep, yearStepAlloc, preRetAlloc, postRetAlloc,
        clampEps, initState, EPS])
    (by
      norm_num [pA, runProjection, runRowsAux, yearStep, yearStepAlloc, preRetAlloc, postRetAlloc,
        clampEps, initState, EPS])
    (by omega)
    (by
      norm_num [pA, runProjection, runRowsAux, yearStep, yearStepAlloc, preRetAlloc, postRetAlloc,
        clampEps, initState, EPS, List.get])

/-! ### Claim C2: the balance identity -/

theorem yearStep_row_tfsaC (p : Params) (eb rw : ℚ) (t : Nat) (s : SimState) :
    ((yearStep p eb rw t s).1).tfsaC = (yearStepAlloc p eb rw t s).tfsaC := rfl

theorem yearStep_row_tfsaW (p : Params) (eb rw : ℚ) (t : Nat) (s : SimState) :
    ((yearStep p eb rw t s).1).tfsaW = (yearStepAlloc p eb rw t s).tfsaW := rfl

theorem yearStep_row_nonrC (p : Params) (eb rw : ℚ) (t : Nat) (s : SimState) :
    ((yearStep p eb rw t s).1).nonrC = (yearStepAlloc p eb rw t s).nonrC := rfl

theorem yearStep_row_nonrW (p : Params) (eb rw : ℚ) (t : Nat) (s : SimState) :
    ((yearStep p eb rw t s).1).nonrW = (yearStepAlloc p eb rw t s).nonrW := rfl

theorem yearStep_state_flag (p : Params) (eb rw : ℚ) (t : Nat) (s : SimState) :
    ((yearStep p eb rw t s).2).depletedEarly = (yearStepAlloc p eb rw t s).depleted := rfl

theorem preRetAlloc_bounds (income e c T fi ni : ℚ) (d : Bool)
    (hfi : 0 ≤ fi) (hni : 0 ≤ ni) (hT : 0 ≤ T) :
    0 ≤ fi + (preRetAlloc income e c T fi ni d).tfsaC -
        (preRetAlloc income e c T fi ni d).tfsaW ∧
    0 ≤ ni + (preRetAlloc income e c T fi ni d).nonrC -
        (preRetAlloc income e c T fi ni d).nonrW := by
  simp only [preRetAlloc]
  split_ifs with h1 h2 h3 <;>
    refine ⟨?_, ?_⟩ <;>
    dsimp only <;>
    linarith [min_le_left ni (e + c + T - income),
      min_le_left (fi + T) (e + c + T - income - min ni (e + c + T - income)), EPS_pos]

theorem postRetAlloc_bounds (e w T fi ni : ℚ) (d : Bool)
    (hfi : 0 ≤ fi) (hni : 0 ≤ ni) (hT : 0 ≤ T) :
    0 ≤ fi + (postRetAlloc e w T fi ni d).tfsaC -
        (postRetAlloc e w T fi ni d).tfsaW ∧
    -EPS ≤ ni + (postRetAlloc e w T fi ni d).nonrC -
        (postRetAlloc e w T fi ni d).nonrW := by
  simp only [postRetAlloc]
  split_ifs with h1 h2 h3 h4 <;>
    refine ⟨?_, ?_⟩ <;>
    dsimp only <;>
    linarith [min_le_left fi (e - (w + ni)),
      le_min hT (le_max_left 0 (ni + w - e)), EPS_pos]

theorem yearStep_balance (p : Params) (eb rw : ℚ) (t : Nat) (s : SimState)
    (hfi0 : 0 ≤ p.tfsaInitialBalance) (hni0 : 0 ≤ p.nonRegisteredInitialBalance)
    (hfr : 0 ≤ p.tfsaRoi) (hnr : 0 ≤ p.nonRegisteredRoi) (hT : 0 ≤ p.tfsaContribute)
    (hs1 : 0 ≤ s.tfsaEndPrev) (hs2 : 0 ≤ s.nonrEndPrev) :
    |((yearStep p eb rw t s).1).tfsaEnd - (((yearStep p eb rw t s).1).tfsaInit +
        ((yearStep p eb rw t s).1).tfsaC - ((yearStep p eb rw t s).1).tfsaW)| ≤ EPS ∧
    |((yearStep p eb rw t s).1).nonrEnd - (((yearStep p eb rw t s).1).nonrInit +
        ((yearStep p eb rw t s).1).nonrC - ((yearStep p eb rw t s).1).nonrW)| ≤ EPS := by
  have hfi : 0 ≤ (if t = 0 then p.tfsaInitialBalance
      else s.tfsaEndPrev * (1 + p.tfsaRoi)) := by
    split
    · exact hfi0
    · exact mul_nonneg hs1 (by linarith)
  have hni : 0 ≤ (if t = 0 then p.nonRegisteredInitialBalance
      else s.nonrEndPrev * (1 + p.nonRegisteredRoi)) := by
    split
    · exact hni0
    · exact mul_nonneg hs2 (by linarith)
  have hTT : 0 ≤ (if s.nonrCleared then (0 : ℚ) else p.tfsaContribute) := by
    split
    · exact le_rfl
    · exact hT
  have key : -EPS ≤ (if t = 0 then p.tfsaInitialBalance
        else s.tfsaEndPrev * (1 + p.tfsaRoi)) + (yearStepAlloc p eb rw t s).tfsaC -
        (yearStepAlloc p eb rw t s).tfsaW ∧
      -EPS ≤ (if t = 0 then p.nonRegisteredInitialBalance
        else s.nonrEndPrev * (1 + p.nonRegisteredRoi)) + (yearStepAlloc p eb rw t s).nonrC -
        (yearStepAlloc p eb rw t s).nonrW := by
    by_cases hb : t < p.yearsToRetire
    · have halloc : yearStepAlloc p eb rw t s =
          preRetAlloc p.incomeAnnual (eb * (1 + p.inflationRate) ^ t) p.rrspContribute
            (if s.nonrCleared then 0 else p.tfsaContribute)
            (if t = 0 then p.tfsaInitialBalance else s.tfsaEndPrev * (1 + p.tfsaRoi))
            (if t = 0 then p.nonRegisteredInitialBalance
              else s.nonrEndPrev * (1 + p.nonRegisteredRoi)) s.depletedEarly := by
        simp only [yearStepAlloc, if_pos hb]
      rw [halloc]
      have h := preRetAlloc_bounds p.incomeAnnual (eb * (1 + p.inflationRate) ^ t)
        p.rrspContribute _ _ _ s.depletedEarly hfi hni hTT
      exact ⟨by linarith [EPS_pos, h.1], by linarith [EPS_pos, h.2]⟩
    · have halloc : yearStepAlloc p eb rw t s =
          postRetAlloc (eb * (1 + p.inflationRate) ^ t) rw
            (if s.nonrCleared then 0 else p.tfsaContribute)
            (if t = 0 then p.tfsaInitialBalance else s.tfsaEndPrev * (1 + p.tfsaRoi))
            (if t = 0 then p.nonRegisteredInitialBalance
              else s.nonrEndPrev * (1 + p.nonRegisteredRoi)) s.depletedEarly := by
        simp only [yearStepAlloc, if_neg hb, if_pos (not_lt.mp hb)]
      rw [halloc]
      have h := postRetAlloc_bounds (eb * (1 + p.inflationRate) ^ t) rw _ _ _
        s.depletedEarly hfi hni hTT
      exact ⟨by linarith [EPS_pos, h.1], h.2⟩
  constructor
  · rw [yearStep_row_tfsaEnd, yearStep_row_tfsaInit, yearStep_row_tfsaC, yearStep_row_tfsaW]
    exact abs_clampEps_sub key.1
  · rw [yearStep_row_nonrEnd, yearStep_row_nonrInit, yearStep_row_nonrC, yearStep_row_nonrW]
    exact abs_clampEps_sub key.2

theorem rows_balance_aux (p : Params) (eb rw : ℚ) (n : Nat)
    (hfi0 : 0 ≤ p.tfsaInitialBalance) (hni0 : 0 ≤ p.nonRegisteredInitialBalance)
    (hfr : 0 ≤ p.tfsaRoi) (hnr : 0 ≤ p.nonRegisteredRoi) (hT : 0 ≤ p.tfsaContribute) :
    ∀ r t s, 0 ≤ s.tfsaEndPrev → 0 ≤ s.nonrEndPrev →
      ∀ row ∈ (runRowsAux p eb rw n t r s).1,
        row.rrspEnd = row.rrspInit + row.rrspC - row.rrspW ∧
        |row.tfsaEnd - (row.tfsaInit + row.tfsaC - row.tfsaW)| ≤ EPS ∧
        |row.nonrEnd - (row.nonrInit + row.nonrC - row.nonrW)| ≤ EPS := by
  intro r
  induction r with
  | zero =>
    intro t s _ _ row h
    simp [runRowsAux] at h
  | succ r ih =>
    intro t s hs1 hs2 row h
    simp only [runRowsAux] at h
    have hstep : row = ((yearStep p eb rw t s).1) →
        row.rrspEnd = row.rrspInit + row.rrspC - row.rrspW ∧
        |row.tfsaEnd - (row.tfsaInit + row.tfsaC - row.tfsaW)| ≤ EPS ∧
        |row.nonrEnd - (row.nonrInit + row.nonrC - row.nonrW)| ≤ EPS := by
      intro hr
      subst hr
      exact ⟨yearStep_row_rrspEnd p eb rw t s,
        (yearStep_balance p eb rw t s hfi0 hni0 hfr hnr hT hs1 hs2).1,
        (yearStep_balance p eb rw t s hfi0 hni0 hfr hnr hT hs1 hs2).2⟩
    split at h
    · simp at h
      exact hstep h
    · simp only [List.mem_cons] at h
      rcases h with h0 | h1
      · exact hstep h0
      · refine ih (t + 1) (yearStep p eb rw t s).2 ?_ ?_ row h1
        · rw [yearStep_state_tfsa, yearStep_row_tfsaEnd]
          exact clampEps_nonneg _
        · rw [yearStep_state_nonr, yearStep_row_nonrEnd]
          exact clampEps_nonneg _

/-- C2 (amended): provided the tax-free and taxable initial balances,
their rates of return, and the tax-free contribution target are
nonnegative, every produced row satisfies
`closing = opening + contribution - withdrawal` within `EPS` for the
tax-free and taxable accounts (the deviation coming only from the epsilon
floor), and exactly for the tax-deferred account.  Without the
nonnegativity hypotheses the floor can clamp a large negative value to
zero, breaking the identity by far more than `EPS` (see the
refutation). -/
theorem claim2_balance_identity (p : Params) (eb : ℚ) (n : Nat) (rw : ℚ)
    (hfi0 : 0 ≤ p.tfsaInitialBalance) (hni0 : 0 ≤ p.nonRegisteredInitialBalance)
    (hfr : 0 ≤ p.tfsaRoi) (hnr : 0 ≤ p.nonRegisteredRoi) (hT : 0 ≤ p.tfsaContribute) :
    ∀ row ∈ (runProjection p eb n rw).rows,
      row.rrspEnd = row.rrspInit + row.rrspC - row.rrspW ∧
      |row.tfsaEnd - (row.tfsaInit + row.tfsaC - row.tfsaW)| ≤ EPS ∧
      |row.nonrEnd - (row.nonrInit + row.nonrC - row.nonrW)| ≤ EPS := by
  intro row h
  rw [runProjection_rows] at h
  exact rows_balance_aux p eb rw n hfi0 hni0 hfr hnr hT n 0 (initState p) hfi0 hni0 row h

/-- C2 refutation: with a taxable initial balance of -100 (and everything
else zero) the year-0 row has opening -100, no flows, and a clamped
closing balance of 0: the balance identity is off by 100, far beyond
`EPS`.  The epsilon floor clamps every sub-epsilon value, not only
near-zero negatives. -/
theorem claim2_counterexample :
    rowC0.nonrInit = -100 ∧ rowC0.nonrC = 0 ∧ rowC0.nonrW = 0 ∧ rowC0.nonrEnd = 0 ∧
    ¬ |rowC0.nonrEnd - (rowC0.nonrInit + rowC0.nonrC - rowC0.nonrW)| ≤ EPS ∧
    rowC0 ∈ (runProjection pC 0 1 0).rows := by
  have hv : rowC0.nonrEnd - (rowC0.nonrInit + rowC0.nonrC - rowC0.nonrW) = 100 := by
    norm_num [rowC0, pC, runProjection, runRowsAux, yearStep, yearStepAlloc, preRetAlloc,
      postRetAlloc, clampEps, initState, EPS]
  refine ⟨?_, ?_, ?_, ?_, ?_, ?_⟩ <;>
    first
      | (rw [hv, abs_of_nonneg (by norm_num)]; norm_num [EPS])
      | norm_num [rowC0, pC, runProjection, runRowsAux, yearStep, yearStepAlloc, preRetAlloc,
          postRetAlloc, clampEps, initState, EPS]

/-- C2 witness on the year-0 row of the `pA` run. -/
theorem claim2_witness :
    |rowA0.tfsaEnd - (rowA0.tfsaInit + rowA0.tfsaC - rowA0.tfsaW)| ≤ EPS :=
  ((claim2_balance_identity pA 10 2 50 (by norm_num [pA]) (by norm_num [pA])
    (by norm_num [pA]) (by norm_num [pA]) (by norm_num [pA]) rowA0
    (by
      norm_num [rowA0, pA, runProjection, runRowsAux, yearStep, yearStepAlloc, preRetAlloc,
        postRetAlloc, clampEps, initState, EPS])).2).1

/-! ### Claim C3: the retirement spending ladder -/

theorem yearStep_row_income (p : Params) (eb rw : ℚ) (t : Nat) (s : SimState) :
    ((yearStep p eb rw t s).1).income =
      if t < p.yearsToRetire then p.incomeAnnual else 0 := rfl

theorem yearStep_row_expense (p : Params) (eb rw : ℚ) (t : Nat) (s : SimState) :
    ((yearStep p eb rw t s).1).expense = eb * (1 + p.inflationRate) ^ t := rfl

theorem yearStep_row_rrspC (p : Params) (eb rw : ℚ) (t : Nat) (s : SimState) :
    ((yearStep p eb rw t s).1).rrspC =
      if t < p.yearsToRetire then p.rrspContribute else 0 := rfl

theorem yearStep_row_rrspW (p : Params) (eb rw : ℚ) (t : Nat) (s : SimState) :
    ((yearStep p eb rw t s).1).rrspW =
      if p.yearsToRetire ≤ t then rw else 0 := rfl

/-- C3 (amended): in every retirement year, income is 0 and the
tax-deferred withdrawal equals the fixed amount; the spending need of the
taxable account equals `expense + T - rrspW`, where `T` is the tax-free
contribution target (NOT `expense - rrspW` floored at 0 as the claim
states).  When the need is nonpositive the surplus flows into the taxable
account as a contribution; when the taxable opening balance covers it
within `EPS` the taxable account withdraws exactly the need; otherwise
the taxable account is emptied, the tax-free contribution is cut to
`min T (max 0 (nonrInit + rrspW - expense))`, and if the tax-deferred
withdrawal plus the emptied taxable account still fall more than `EPS`
short of expense, the tax-free contribution is zeroed and the tax-free
account withdraws `min tfsaInit (expense - rrspW - nonrInit)`.  The
depletion flag is set this year exactly when the three withdrawals fall
more than `EPS` short of expense. -/
theorem claim3_retirement_ladder (p : Params) (eb rw : ℚ) (t : Nat) (s : SimState)
    (ht : p.yearsToRetire ≤ t) (hT : 0 ≤ p.tfsaContribute) :
    let row := (yearStep p eb rw t s).1
    let T : ℚ := if s.nonrCleared then 0 else p.tfsaContribute
    row.income = 0 ∧
    row.rrspW = rw ∧
    (row.expense + T - rw ≤ 0 →
      row.tfsaC = T ∧ row.tfsaW = 0 ∧ row.nonrW = 0 ∧
      row.nonrC = -(row.expense + T - rw)) ∧
    (0 < row.expense + T - rw → row.expense + T - rw ≤ row.nonrInit + EPS →
      row.tfsaC = T ∧ row.tfsaW = 0 ∧ row.nonrC = 0 ∧
      row.nonrW = row.expense + T - rw) ∧
    (0 < row.expense + T - rw → row.nonrInit + EPS < row.expense + T - rw →
      row.nonrW = row.nonrInit ∧ row.nonrC = 0 ∧
      (rw + row.nonrInit + EPS < row.expense →
        row.tfsaC = 0 ∧
        row.tfsaW = min row.tfsaInit (row.expense - (rw + row.nonrInit))) ∧
      (row.expense ≤ rw + row.nonrInit + EPS →
        row.tfsaC = min T (max 0 (row.nonrInit + rw - row.expense)) ∧ row.tfsaW = 0)) ∧
    (((yearStep p eb rw t s).2).depletedEarly = true ↔
      s.depletedEarly = true ∨ rw + row.nonrW + row.tfsaW + EPS < row.expense) := by
  dsimp only
  have hnlt : ¬ t < p.yearsToRetire := not_lt.mpr ht
  have hTT : 0 ≤ (if s.nonrCleared then (0 : ℚ) else p.tfsaContribute) := by
    split
    · exact le_rfl
    · exact hT
  have halloc : yearStepAlloc p eb rw t s =
      postRetAlloc (eb * (1 + p.inflationRate) ^ t) rw
        (if s.nonrCleared then 0 else p.tfsaContribute)
        (if t = 0 then p.tfsaInitialBalance else s.tfsaEndPrev * (1 + p.tfsaRoi))
        (if t = 0 then p.nonRegisteredInitialBalance
          else s.nonrEndPrev * (1 + p.nonRegisteredRoi)) s.depletedEarly := by
    simp only [yearStepAlloc, if_neg hnlt, if_pos ht]
  refine ⟨?_, ?_, ?_, ?_, ?_, ?_⟩
  · rw [yearStep_row_income, if_neg hnlt]
  · rw [yearStep_row_rrspW, if_pos ht]
  · intro h
    rw [yearStep_row_expense] at h
    rw [yearStep_row_tfsaC, yearStep_row_tfsaW, yearStep_row_nonrW, yearStep_row_nonrC,
      yearStep_row_expense, halloc]
    simp only [postRetAlloc]
    rw [if_pos h]
    exact ⟨rfl, rfl, rfl, rfl⟩
  · intro ha hbb
    rw [yearStep_row_expense] at ha
    rw [yearStep_row_expense, yearStep_row_nonrInit] at hbb
    rw [yearStep_row_tfsaC, yearStep_row_tfsaW, yearStep_row_nonrC, yearStep_row_nonrW,
      yearStep_row_expense, halloc]
    simp only [postRetAlloc]
    rw [if_neg (not_le.mpr ha), if_pos hbb]
    exact ⟨rfl, rfl, rfl, rfl⟩
  · intro ha hbb
    rw [yearStep_row_expense] at ha
    rw [yearStep_row_expense, yearStep_row_nonrInit] at hbb
    rw [yearStep_row_nonrW, yearStep_row_nonrC, yearStep_row_nonrInit, halloc]
    simp only [postRetAlloc]
    rw [if_neg (not_le.mpr ha), if_neg (not_le.mpr hbb)]
    refine ⟨?_, ?_, ?_, ?_⟩
    · rcases lt_or_le (rw + (if t = 0 then p.nonRegisteredInitialBalance
          else s.nonrEndPrev * (1 + p.nonRegisteredRoi)) + EPS)
          (eb * (1 + p.inflationRate) ^ t) with hc | hc
      · rw [if_pos hc]
      · rw [if_neg (not_lt.mpr hc)]
    · rcases lt_or_le (rw + (if t = 0 then p.nonRegisteredInitialBalance
          else s.nonrEndPrev * (1 + p.nonRegisteredRoi)) + EPS)
          (eb * (1 + p.inflationRate) ^ t) with hc | hc
      · rw [if_pos hc]
      · rw [if_neg (not_lt.mpr hc)]
    · intro hc
      rw [yearStep_row_expense] at hc
      rw [yearStep_row_tfsaC, yearStep_row_tfsaW, yearStep_row_tfsaInit,
        yearStep_row_expense, halloc]
      simp only [postRetAlloc]
      rw [if_neg (not_le.mpr ha), if_neg (not_le.mpr hbb), if_pos hc]
      exact ⟨rfl, rfl⟩
    · intro hc
      rw [yearStep_row_expense] at hc
      rw [yearStep_row_tfsaC, yearStep_row_tfsaW, yearStep_row_expense, halloc]
      simp only [postRetAlloc]
      rw [if_neg (not_le.mpr ha), if_neg (not_le.mpr hbb), if_neg (not_lt.mpr hc)]
      exact ⟨rfl, rfl⟩
  · rw [yearStep_state_flag, yearStep_row_nonrW, yearStep_row_tfsaW,
      yearStep_row_expense, halloc]
    simp only [postRetAlloc]
    rcases le_or_lt (eb * (1 + p.inflationRate) ^ t +
        (if s.nonrCleared then 0 else p.tfsaContribute) - rw) 0 with h1 | h1
    · rw [if_pos h1]
      dsimp only
      constructor
      · exact fun hd => Or.inl hd
      · rintro (hd | habs)
        · exact hd
        · exfalso
          linarith [EPS_pos]
    · rw [if_neg (not_le.mpr h1)]
      rcases le_or_lt (eb * (1 + p.inflationRate) ^ t +
          (if s.nonrCleared then 0 else p.tfsaContribute) - rw)
          ((if t = 0 then p.nonRegisteredInitialBalance
            else s.nonrEndPrev * (1 + p.nonRegisteredRoi)) + EPS) with h2 | h2
      · rw [if_pos h2]
        dsimp only
        constructor
        · exact fun hd => Or.inl hd
        · rintro (hd | habs)
          · exact hd
          · exfalso
            linarith [EPS_pos]
      · rw [if_neg (not_le.mpr h2)]
        rcases lt_or_le (rw + (if t = 0 then p.nonRegisteredInitialBalance
            else s.nonrEndPrev * (1 + p.nonRegisteredRoi)) + EPS)
            (eb * (1 + p.inflationRate) ^ t) with h3 | h3
        · rw [if_pos h3]
          dsimp only
          rcases lt_or_le EPS (eb * (1 + p.inflationRate) ^ t -
              (rw + (if t = 0 then p.nonRegisteredInitialBalance
                else s.nonrEndPrev * (1 + p.nonRegisteredRoi))) -
              min (if t = 0 then p.tfsaInitialBalance
                else s.tfsaEndPrev * (1 + p.tfsaRoi))
                (eb * (1 + p.inflationRate) ^ t -
                  (rw + (if t = 0 then p.nonRegisteredInitialBalance
                    else s.nonrEndPrev * (1 + p.nonRegisteredRoi))))) with h4 | h4
          · rw [if_pos h4]
            constructor
            · exact fun _ => Or.inr (by linarith)
            · exact fun _ => rfl
          · rw [if_neg (not_lt.mpr h4)]
            constructor
            · exact fun hd => Or.inl hd
            · rintro (hd | habs)
              · exact hd
              · exfalso
                linarith
        · rw [if_neg (not_lt.mpr h3)]
          dsimp only
          constructor
          · exact fun hd => Or.inl hd
          · rintro (hd | habs)
            · exact hd
            · exfalso
              linarith

/-- C3 refutation: in year 0 of the `pA` run (a retirement year, expense
10, resolved withdrawal 50, tax-free target 45) the tax-deferred surplus
over expense is 40, yet no contribution flows into the taxable account:
`nonrC = 0`, because the code's need includes the tax-free target. -/
theorem claim3_counterexample :
    rowA0.income = 0 ∧ rowA0.rrspW = 50 ∧ rowA0.expense = 10 ∧
    rowA0.rrspW - rowA0.expense = 40 ∧ rowA0.nonrC = 0 ∧
    rowA0.nonrC ≠ rowA0.rrspW - rowA0.expense := by
  norm_num [rowA0, pA, runProjection, runRowsAux, yearStep, yearStepAlloc, preRetAlloc,
    postRetAlloc, clampEps, initState, EPS]

/-- C3 witness: the surplus branch on a concrete retirement year
(expense 10, withdrawal 50, cleared tax-free target). -/
theorem claim3_witness :
    (((yearStep pZ 10 50 0 (initState pZ)).1).tfsaC = 0 ∧
      ((yearStep pZ 10 50 0 (initState pZ)).1).tfsaW = 0 ∧
      ((yearStep pZ 10 50 0 (initState pZ)).1).nonrW = 0 ∧
      ((yearStep pZ 10 50 0 (initState pZ)).1).nonrC =
        -(((yearStep pZ 10 50 0 (initState pZ)).1).expense +
          (if (initState pZ).nonrCleared then 0 else pZ.tfsaContribute) - 50)) :=
  ((claim3_retirement_ladder pZ 10 50 0 (initState pZ) (by norm_num [pZ])
    (by norm_num [pZ])).2.2.1)
    (by
      norm_num [pZ, yearStep_row_expense, initState])

/-! ### Claim C4: opening balances and growth without flows -/

theorem clampEps_pow (b r : ℚ) (k : Nat) (hr : 0 ≤ r) (hb : b = 0 ∨ EPS ≤ b) :
    clampEps (b * (1 + r) ^ k) = b * (1 + r) ^ k := by
  rcases hb with hb | hb
  · subst hb
    simp [clampEps, EPS_pos]
  · have hp : (1 : ℚ) ≤ (1 + r) ^ k := by
      calc (1 : ℚ) = 1 ^ k := (one_pow _).symm
      _ ≤ (1 + r) ^ k := pow_le_pow_left₀ (by norm_num) (by linarith) _
    have hv : EPS ≤ b * (1 + r) ^ k :=
      le_trans hb (le_mul_of_one_le_right (le_trans EPS_pos.le hb) hp)
    rw [clampEps, if_neg (not_lt.mpr hv)]

/-- C4 (amended): the year-0 opening balances equal the initial balances
verbatim and every later opening balance equals the previous closing
balance grown one period at the account's rate; an account with no flows
in any year follows `initial * (1 + rate) ^ t` exactly, provided its rate
is nonnegative and its initial balance is either zero or at least `EPS`
(for the clamped tax-free and taxable accounts) — a positive initial
balance below `EPS` is clamped to zero in year 0 and the formula then
fails beyond tolerance (see the refutation). -/
theorem claim4_opening_growth (p : Params) (eb : ℚ) (n : Nat) (rw : ℚ) :
    let rows := (runProjection p eb n rw).rows
    (∀ h : 0 < rows.length,
      (rows.get ⟨0, h⟩).rrspInit = p.rrspInitialBalance ∧
      (rows.get ⟨0, h⟩).tfsaInit = p.tfsaInitialBalance ∧
      (rows.get ⟨0, h⟩).nonrInit = p.nonRegisteredInitialBalance) ∧
    (∀ i (h : i + 1 < rows.length),
      (rows.get ⟨i + 1, h⟩).rrspInit =
        (rows.get ⟨i, Nat.lt_of_succ_lt h⟩).rrspEnd * (1 + p.rrspRoi) ∧
      (rows.get ⟨i + 1, h⟩).tfsaInit =
        (rows.get ⟨i, Nat.lt_of_succ_lt h⟩).tfsaEnd * (1 + p.tfsaRoi) ∧
      (rows.get ⟨i + 1, h⟩).nonrInit =
        (rows.get ⟨i, Nat.lt_of_succ_lt h⟩).nonrEnd * (1 + p.nonRegisteredRoi)) ∧
    ((∀ row ∈ rows, row.rrspC = 0 ∧ row.rrspW = 0) →
      ∀ i, ∀ h : i < rows.length,
        (rows.get ⟨i, h⟩).rrspEnd = p.rrspInitialBalance * (1 + p.rrspRoi) ^ i) ∧
    (0 ≤ p.tfsaRoi → (p.tfsaInitialBalance = 0 ∨ EPS ≤ p.tfsaInitialBalance) →
      (∀ row ∈ rows, row.tfsaC = 0 ∧ row.tfsaW = 0) →
      ∀ i, ∀ h : i < rows.length,
        (rows.get ⟨i, h⟩).tfsaEnd = p.tfsaInitialBalance * (1 + p.tfsaRoi) ^ i) ∧
    (0 ≤ p.nonRegisteredRoi →
      (p.nonRegisteredInitialBalance = 0 ∨ EPS ≤ p.nonRegisteredInitialBalance) →
      (∀ row ∈ rows, row.nonrC = 0 ∧ row.nonrW = 0) →
      ∀ i, ∀ h : i < rows.length,
        (rows.get ⟨i, h⟩).nonrEnd =
          p.nonRegisteredInitialBalance * (1 + p.nonRegisteredRoi) ^ i) := by
  dsimp only
  refine ⟨?_, ?_, ?_, ?_, ?_⟩
  · intro h
    refine ⟨?_, ?_, ?_⟩ <;>
      rw [rows_get] <;>
      simp [yearStep_row_rrspInit, yearStep_row_tfsaInit, yearStep_row_nonrInit]
  · intro i h
    refine ⟨?_, ?_, ?_⟩
    · rw [rows_get, rows_get, yearStep_row_rrspInit, if_neg (Nat.succ_ne_zero i),
        stepFrom_succ, Nat.zero_add, yearStep_state_rrsp]
    · rw [rows_get, rows_get, yearStep_row_tfsaInit, if_neg (Nat.succ_ne_zero i),
        stepFrom_succ, Nat.zero_add, yearStep_state_tfsa]
    · rw [rows_get, rows_get, yearStep_row_nonrInit, if_neg (Nat.succ_ne_zero i),
        stepFrom_succ, Nat.zero_add, yearStep_state_nonr]
  · intro hflows i
    induction i with
    | zero =>
      intro h
      have hm := hflows ((runProjection p eb n rw).rows.get ⟨0, h⟩) (List.get_mem _ _ _)
      rw [rows_get] at hm ⊢
      rw [yearStep_row_rrspEnd, hm.1, hm.2, yearStep_row_rrspInit, if_pos rfl]
      ring
    | succ i ih =>
      intro h
      have hm := hflows ((runProjection p eb n rw).rows.get ⟨i + 1, h⟩) (List.get_mem _ _ _)
      have hprev := ih (Nat.lt_of_succ_lt h)
      rw [rows_get] at hm ⊢
      rw [rows_get] at hprev
      rw [yearStep_row_rrspEnd, hm.1, hm.2, yearStep_row_rrspInit,
        if_neg (Nat.succ_ne_zero i), stepFrom_succ, Nat.zero_add, yearStep_state_rrsp,
        hprev]
      ring
  · intro hroi hinit hflows i
    induction i with
    | zero =>
      intro h
      have hm := hflows ((runProjection p eb n rw).rows.get ⟨0, h⟩) (List.get_mem _ _ _)
      rw [rows_get] at hm ⊢
      rw [yearStep_row_tfsaEnd, hm.1, hm.2, yearStep_row_tfsaInit, if_pos rfl,
        show p.tfsaInitialBalance + 0 - 0 =
          p.tfsaInitialBalance * (1 + p.tfsaRoi) ^ 0 from by ring]
      exact clampEps_pow _ _ _ hroi hinit
    | succ i ih =>
      intro h
      have hm := hflows ((runProjection p eb n rw).rows.get ⟨i + 1, h⟩) (List.get_mem _ _ _)
      have hprev := ih (Nat.lt_of_succ_lt h)
      rw [rows_get] at hm ⊢
      rw [rows_get] at hprev
      rw [yearStep_row_tfsaEnd, hm.1, hm.2, yearStep_row_tfsaInit,
        if_neg (Nat.succ_ne_zero i), stepFrom_succ, Nat.zero_add, yearStep_state_tfsa,
        hprev,
        show p.tfsaInitialBalance * (1 + p.tfsaRoi) ^ i * (1 + p.tfsaRoi) + 0 - 0 =
          p.tfsaInitialBalance * (1 + p.tfsaRoi) ^ (i + 1) from by ring]
      exact clampEps_pow _ _ _ hroi hinit
  · intro hroi hinit hflows i
    induction i with
    | zero =>
      intro h
      have hm := hflows ((runProjection p eb n rw).rows.get ⟨0, h⟩) (List.get_mem _ _ _)
      rw [rows_get] at hm ⊢
      rw [yearStep_row_nonrEnd, hm.1, hm.2, yearStep_row_nonrInit, if_pos rfl,
        show p.nonRegisteredInitialBalance + 0 - 0 =
          p.nonRegisteredInitialBalance * (1 + p.nonRegisteredRoi) ^ 0 from by ring]
      exact clampEps_pow _ _ _ hroi hinit
    | succ i ih =>
      intro h
      have hm := hflows ((runProjection p eb n rw).rows.get ⟨i + 1, h⟩) (List.get_mem _ _ _)
      have hprev := ih (Nat.lt_of_succ_lt h)
      rw [rows_get] at hm ⊢
      rw [rows_get] at hprev
      rw [yearStep_row_nonrEnd, hm.1, hm.2, yearStep_row_nonrInit,
        if_neg (Nat.succ_ne_zero i), stepFrom_succ, Nat.zero_add, yearStep_state_nonr,
        hprev,
        show p.nonRegisteredInitialBalance * (1 + p.nonRegisteredRoi) ^ i *
            (1 + p.nonRegisteredRoi) + 0 - 0 =
          p.nonRegisteredInitialBalance * (1 + p.nonRegisteredRoi) ^ (i + 1) from by ring]
      exact clampEps_pow _ _ _ hroi hinit

/-- C4 refutation: the tax-free account of `pD` starts at `EPS / 2` with
a 100% rate and no flows in any of the 3 years.  The growth formula
predicts `2 * EPS` at year 2, but year 0 already clamps the sub-epsilon
balance to zero, so the produced closing balance at year 2 is 0: off by
`2 * EPS`, beyond the claimed floating-point tolerance (the relative
error is 100%). -/
theorem claim4_counterexample :
    rowsD.length = 3 ∧
    (rowsD.getD 0 default).tfsaC = 0 ∧ (rowsD.getD 0 default).tfsaW = 0 ∧
    (rowsD.getD 1 default).tfsaC = 0 ∧ (rowsD.getD 1 default).tfsaW = 0 ∧
    rowD2.tfsaC = 0 ∧ rowD2.tfsaW = 0 ∧ rowD2.tfsaEnd = 0 ∧
    pD.tfsaInitialBalance * (1 + pD.tfsaRoi) ^ 2 = 2 * EPS ∧
    ¬ |rowD2.tfsaEnd - pD.tfsaInitialBalance * (1 + pD.tfsaRoi) ^ 2| ≤ EPS := by
  have hd : rowD2.tfsaEnd - pD.tfsaInitialBalance * (1 + pD.tfsaRoi) ^ 2 = -(2 * EPS) := by
    norm_num [rowD2, rowsD, pD, runProjection, runRowsAux, yearStep, yearStepAlloc,
      preRetAlloc, postRetAlloc, clampEps, initState, EPS]
  refine ⟨?_, ?_, ?_, ?_, ?_, ?_, ?_, ?_, ?_, ?_⟩ <;>
    first
      | (rw [hd, abs_neg, abs_of_nonneg (by norm_num [EPS])]; norm_num [EPS])
      | norm_num [rowD2, rowsD, pD, runProjection, runRowsAux, yearStep, yearStepAlloc,
          preRetAlloc, postRetAlloc, clampEps, initState, EPS]

/-- C4 witness: the tax-free account of `pG` (initial balance 100 at 5%,
no flows) closes year 2 at `100 * 1.05 ^ 2`. -/
theorem claim4_witness :
    ((runProjection pG 0 3 0).rows.get ⟨2, by
      norm_num [pG, runProjection, runRowsAux, yearStep, yearStepAlloc, preRetAlloc,
        postRetAlloc, clampEps, initState, EPS]⟩).tfsaEnd =
      pG.tfsaInitialBalance * (1 + pG.tfsaRoi) ^ 2 :=
  (claim4_opening_growth pG 0 3 0).2.2.2.1 (by norm_num [pG])
    (Or.inr (by norm_num [pG, EPS]))
    (by
      norm_num [pG, runProjection, runRowsAux, yearStep, yearStepAlloc, preRetAlloc,
        postRetAlloc, clampEps, initState, EPS, List.forall_mem_cons]) 2
    (by
      norm_num [pG, runProjection, runRowsAux, yearStep, yearStepAlloc, preRetAlloc,
        postRetAlloc, clampEps, initState, EPS])

/-! ### Claim C10: shape of the produced row list -/

theorem runRowsAux_succ (p : Params) (eb rw : ℚ) (n t r : Nat) (s : SimState) :
    runRowsAux p eb rw n t (r + 1) s =
      if (yearStep p eb rw t s).2.depletedEarly = true ∧ t + 1 < n
      then ([(yearStep p eb rw t s).1], true)
      else ((yearStep p eb rw t s).1 ::
              (runRowsAux p eb rw n (t + 1) r (yearStep p eb rw t s).2).1,
            (runRowsAux p eb rw n (t + 1) r (yearStep p eb rw t s).2).2) := rfl

theorem runRowsAux_length_le (p : Params) (eb rw : ℚ) (n : Nat) :
    ∀ r t s, (runRowsAux p eb rw n t r s).1.length ≤ r := by
  intro r
  induction r with
  | zero => intro t s; simp [runRowsAux]
  | succ r ih =>
    intro t s
    rw [runRowsAux_succ]
    split
    · simp
    · simp only [List.length_cons]
      exact Nat.succ_le_succ (ih (t + 1) _)

theorem runRowsAux_length_pos (p : Params) (eb rw : ℚ) (n t r : Nat) (s : SimState) :
    1 ≤ (runRowsAux p eb rw n t (r + 1) s).1.length := by
  rw [runRowsAux_succ]
  split <;> simp

theorem runRowsAux_flag_false (p : Params) (eb rw : ℚ) (n : Nat) :
    ∀ r t s, (runRowsAux p eb rw n t r s).2 = false →
      (runRowsAux p eb rw n t r s).1.length = r := by
  intro r
  induction r with
  | zero => intro t s _; simp [runRowsAux]
  | succ r ih =>
    intro t s hf
    by_cases hc : (yearStep p eb rw t s).2.depletedEarly = true ∧ t + 1 < n
    · rw [runRowsAux_succ, if_pos hc] at hf
      exact absurd hf (by simp)
    · rw [runRowsAux_succ, if_neg hc] at hf ⊢
      simp only [List.length_cons]
      rw [ih (t + 1) _ hf]

theorem runRowsAux_short (p : Params) (eb rw : ℚ) (n : Nat) :
    ∀ r t s, t + r = n → s.depletedEarly = false →
      (runRowsAux p eb rw n t r s).1.length < r →
      (runRowsAux p eb rw n t r s).2 = true ∧
      (stepFrom p eb rw t s ((runRowsAux p eb rw n t r s).1.length - 1)).depletedEarly
        = false ∧
      (stepFrom p eb rw t s ((runRowsAux p eb rw n t r s).1.length)).depletedEarly
        = true := by
  intro r
  induction r with
  | zero =>
    intro t s _ _ hlt
    exact absurd hlt (Nat.not_lt_zero _)
  | succ r ih =>
    intro t s hinv hs hlt
    by_cases hc : (yearStep p eb rw t s).2.depletedEarly = true ∧ t + 1 < n
    · rw [runRowsAux_succ, if_pos hc]
      refine ⟨rfl, ?_, ?_⟩
      · simpa [stepFrom] using hs
      · simpa [stepFrom] using hc.1
    · have hlt' :
          (runRowsAux p eb rw n (t + 1) r (yearStep p eb rw t s).2).1.length < r := by
        rw [runRowsAux_succ, if_neg hc] at hlt
        simp only [List.length_cons] at hlt
        omega
      have hb : t + 1 < n := by omega
      have hsd : (yearStep p eb rw t s).2.depletedEarly = false := by
        rcases Bool.eq_false_or_eq_true (yearStep p eb rw t s).2.depletedEarly with h | h
        · exact absurd ⟨h, hb⟩ hc
        · exact h
      have ihr := ih (t + 1) (yearStep p eb rw t s).2 (by omega) hsd hlt'
      rw [runRowsAux_succ, if_neg hc]
      simp only [List.length_cons]
      refine ⟨ihr.1, ?_, ?_⟩
      · simp only [Nat.add_sub_cancel]
        cases hm : (runRowsAux p eb rw n (t + 1) r (yearStep p eb rw t s).2).1.length with
        | zero => exact hs
        | succ m =>
          have hmid := ihr.2.1
          rw [hm] at hmid
          simp only [Nat.add_sub_cancel] at hmid
          rw [stepFrom_shift] at hmid
          exact hmid
      · rw [← stepFrom_shift]
        exact ihr.2.2

/-- C10: for a requested horizon of at least one year, the produced row
list is nonempty and never longer than the horizon; if the depletion flag
is false the row count equals the horizon; if the row count is shorter
than the horizon the depletion flag is true, the state entering the final
row is not yet depleted and the state leaving it is depleted — the year
in which depletion occurred is itself the final row; and every row at
index `i` is the row produced by year `i`. -/
theorem claim10_rows_shape (p : Params) (eb : ℚ) (n : Nat) (rw : ℚ) (hn : 1 ≤ n) :
    let res := runProjection p eb n rw
    1 ≤ res.rows.length ∧
    res.rows.length ≤ n ∧
    (res.depletedEarly = false → res.rows.length = n) ∧
    (res.rows.length < n →
      res.depletedEarly = true ∧
      (stepFrom p eb rw 0 (initState p) (res.rows.length - 1)).depletedEarly = false ∧
      (stepFrom p eb rw 0 (initState p) res.rows.length).depletedEarly = true) ∧
    (∀ i, ∀ h : i < res.rows.length,
      res.rows.get ⟨i, h⟩ = (yearStep p eb rw i (stepFrom p eb rw 0 (initState p) i)).1)
    := by
  dsimp only
  obtain ⟨m, hm⟩ : ∃ m, n = m + 1 := ⟨n - 1, by omega⟩
  refine ⟨?_, ?_, ?_, ?_, ?_⟩
  · rw [runProjection_rows, hm]
    exact runRowsAux_length_pos p eb rw (m + 1) 0 m (initState p)
  · rw [runProjection_rows]
    exact runRowsAux_length_le p eb rw n n 0 (initState p)
  · intro hf
    rw [runProjection_flag] at hf
    rw [runProjection_rows]
    exact runRowsAux_flag_false p eb rw n n 0 (initState p) hf
  · intro hlen
    rw [runProjection_rows] at hlen
    have hsh := runRowsAux_short p eb rw n n 0 (initState p) (Nat.zero_add n) rfl hlen
    rw [runProjection_rows, runProjection_flag]
    exact hsh
  · intro i h
    exact rows_get p eb n rw i h

/-- C10 witness: the all-zero input over a one-year horizon never
depletes and produces exactly one row. -/
theorem claim10_witness : (runProjection pZ 0 1 0).rows.length = 1 :=
  (claim10_rows_shape pZ 0 1 0 (by norm_num)).2.2.1 (by
    norm_num [pZ, runProjection, runRowsAux, yearStep, yearStepAlloc, preRetAlloc,
      postRetAlloc, clampEps, initState, EPS])

/-! ### Claim C5: the maximum-spending bisection -/

theorem bisectIter_succ (p : Params) (n : Nat) (rw : ℚ) (k : Nat) (lh : ℚ × ℚ) :
    bisectIter p n rw (k + 1) lh =
      if deplete p n rw ((lh.1 + lh.2) / 2) = true
      then bisectIter p n rw k (lh.1, (lh.1 + lh.2) / 2)
      else bisectIter p n rw k ((lh.1 + lh.2) / 2, lh.2) := rfl

theorem bisectIter_invariant (p : Params) (n : Nat) (rw : ℚ) :
    ∀ k lo hi, deplete p n rw lo = false → deplete p n rw hi = true →
      deplete p n rw (bisectIter p n rw k (lo, hi)).1 = false ∧
      deplete p n rw (bisectIter p n rw k (lo, hi)).2 = true ∧
      (bisectIter p n rw k (lo, hi)).2 - (bisectIter p n rw k (lo, hi)).1 =
        (hi - lo) / 2 ^ k := by
  intro k
  induction k with
  | zero =>
    intro lo hi hlo hhi
    exact ⟨hlo, hhi, by simp [bisectIter]⟩
  | succ k ih =>
    intro lo hi hlo hhi
    rw [bisectIter_succ]
    dsimp only
    by_cases hd : deplete p n rw ((lo + hi) / 2) = true
    · rw [if_pos hd]
      have h := ih lo ((lo + hi) / 2) hlo hd
      refine ⟨h.1, h.2.1, ?_⟩
      rw [h.2.2, pow_succ]
      ring
    · rw [if_neg hd]
      simp only [Bool.not_eq_true] at hd
      have h := ih ((lo + hi) / 2) hi hd hhi
      refine ⟨h.1, h.2.1, ?_⟩
      rw [h.2.2, pow_succ]
      ring

theorem jsRound_abs (q : ℚ) : |((jsRound q : ℚ)) - q| ≤ 1 / 2 := by
  have h1 : q + 1 / 2 - 1 < ((⌊q + 1 / 2⌋ : Int) : ℚ) := Int.sub_one_lt_floor _
  have h2 : ((⌊q + 1 / 2⌋ : Int) : ℚ) ≤ q + 1 / 2 := Int.floor_le _
  rw [jsRound, abs_le]
  constructor <;> linarith

/-- C5 (amended): provided the lower bracket end 0 survives and the
expanded upper bracket end depletes, after the 50 bisection iterations
the final `lo` still survives, the final `hi` still depletes, the bracket
has width `hi0 / 2 ^ 50`, and the solved maximum spending is the final
`lo` rounded to the nearest integer, hence within 1/2 of `lo`.  The
rounded integer itself need not survive (see the refutation), and in
solve-expenses mode the source in fact assigns `solvedInitialExpense`
before its `let` declaration executes (line 323 vs 326), a temporal-dead-
zone ReferenceError at runtime. -/
theorem claim5_max_spending (p : Params) (n : Nat)
    (hlo : deplete p n (solveRrspWForHorizon p n) 0 = false)
    (hhi : deplete p n (solveRrspWForHorizon p n) (solveHi p n) = true) :
    deplete p n (solveRrspWForHorizon p n) (solvePair p n).1 = false ∧
    deplete p n (solveRrspWForHorizon p n) (solvePair p n).2 = true ∧
    (solvePair p n).2 - (solvePair p n).1 = solveHi p n / 2 ^ 50 ∧
    solvedInitialExpense p n = jsRound (solvePair p n).1 ∧
    |((solvedInitialExpense p n : ℚ)) - (solvePair p n).1| ≤ 1 / 2 := by
  have h := bisectIter_invariant p n (solveRrspWForHorizon p n) 50 0 (solveHi p n)
    hlo hhi
  have hpair : solvePair p n =
      bisectIter p n (solveRrspWForHorizon p n) 50 (0, solveHi p n) := rfl
  have heq : solvedInitialExpense p n = jsRound (solvePair p n).1 := rfl
  rw [hpair]
  refine ⟨h.1, h.2.1, ?_, heq, ?_⟩
  · rw [h.2.2, sub_zero]
  · rw [heq, hpair]
    exact jsRound_abs _

theorem expandHi_succ (p : Params) (n : Nat) (rw : ℚ) (f : Nat) (hi : ℚ) :
    expandHi p n rw (f + 1) hi =
      if deplete p n rw hi = false ∧ hi < 1000000000 then expandHi p n rw f (hi * 2)
      else hi := rfl

theorem postRetAlloc_depleted_iff (e ni : ℚ) (hni : 0 ≤ ni) :
    (postRetAlloc e 0 0 0 ni false).depleted = true ↔ ni + EPS < e := by
  simp only [postRetAlloc]
  by_cases h1 : e + 0 - 0 ≤ 0
  · rw [if_pos h1]
    dsimp only
    simp only [Bool.false_eq_true, false_iff]
    intro hc
    linarith [EPS_pos]
  · rw [if_neg h1]
    by_cases h2 : e + 0 - 0 ≤ ni + EPS
    · rw [if_pos h2]
      dsimp only
      simp only [Bool.false_eq_true, false_iff]
      intro hc
      linarith
    · rw [if_neg h2]
      by_cases h3 : 0 + ni + EPS < e
      · rw [if_pos h3]
        dsimp only
        have hmin : min (0 : ℚ) (e - (0 + ni)) = 0 := min_eq_left (by linarith [EPS_pos])
        rw [hmin, if_pos (by linarith : EPS < e - (0 + ni) - 0)]
        exact ⟨fun _ => by linarith, fun _ => rfl⟩
      · exact absurd (by linarith : 0 + ni + EPS < e) h3

theorem deplete_pB_iff (eb : ℚ) :
    deplete pB 1 0 eb = true ↔ 9996 / 10 + EPS < eb := by
  have h0 : deplete pB 1 0 eb =
      (postRetAlloc eb 0 0 0 (9996 / 10) false).depleted := by
    norm_num [deplete, runProjection, runRowsAux, yearStep, yearStepAlloc,
      initState, pB]
  rw [h0]
  exact postRetAlloc_depleted_iff eb (9996 / 10) (by norm_num)

/-- C5 refutation: a single taxable balance of 999.6 over a one-year
horizon.  The bisection bracket converges onto 999.6 + epsilon, so the
final lower bound lies in (999.5, 999.6 + epsilon] and is rounded up to
the solved maximum spending 1000 — but simulating at 1000 depletes the
portfolio in year 0 (999.6 + epsilon < 1000), contradicting the claim
that simulating at the solved E does not deplete. -/
theorem claim5_counterexample :
    solvedInitialExpense pB 1 = 1000 ∧
    deplete pB 1 (solveRrspWForHorizon pB 1) 1000 = true := by
  have hrw : solveRrspWForHorizon pB 1 = 0 := by
    norm_num [solveRrspWForHorizon, solveRRSPWithdrawal, rrspSimulate, rrspSimAux, pB]
  have hd1000 : deplete pB 1 (solveRrspWForHorizon pB 1) 1000 = true := by
    rw [hrw, deplete_pB_iff]
    norm_num [EPS]
  have hlo0 : deplete pB 1 0 0 = false := by
    cases hb : deplete pB 1 0 0 with
    | false => rfl
    | true => exact absurd ((deplete_pB_iff 0).mp hb) (by norm_num [EPS])
  have hhiD : deplete pB 1 0 (19992 / 10) = true := by
    rw [deplete_pB_iff]
    norm_num [EPS]
  have hexp : expandHi pB 1 0 64 (max 1000 (sumInit pB * 2)) = 19992 / 10 := by
    have hm : max (1000 : ℚ) (sumInit pB * 2) = 19992 / 10 := by
      rw [max_eq_right (by norm_num [sumInit, pB])]
      norm_num [sumInit, pB]
    rw [hm, show (64 : Nat) = 63 + 1 from rfl, expandHi_succ, if_neg (by simp [hhiD])]
  have hleq : solveExpensesLo pB 1 = (bisectIter pB 1 0 50 (0, 19992 / 10)).1 := by
    simp only [solveExpensesLo]
    rw [hrw, hexp]
  have hinv := bisectIter_invariant pB 1 0 50 0 (19992 / 10) hlo0 hhiD
  have hub : (bisectIter pB 1 0 50 (0, 19992 / 10)).1 ≤ 9996 / 10 + EPS := by
    by_contra hc
    have hT := (deplete_pB_iff _).mpr (not_le.mp hc)
    rw [hinv.1] at hT
    exact Bool.false_ne_true hT
  have hhiB : 9996 / 10 + EPS < (bisectIter pB 1 0 50 (0, 19992 / 10)).2 :=
    (deplete_pB_iff _).mp hinv.2.1
  have hwidth : (bisectIter pB 1 0 50 (0, 19992 / 10)).2 -
      (bisectIter pB 1 0 50 (0, 19992 / 10)).1 < 1 / 10 := by
    rw [hinv.2.2]
    norm_num
  have hEPSlt : EPS < 1 / 2 := by norm_num [EPS]
  refine ⟨?_, hd1000⟩
  rw [solvedInitialExpense, hleq, jsRound, Int.floor_eq_iff]
  constructor
  · push_cast
    linarith [EPS_pos]
  · push_cast
    linarith

/-- C5 witness: the all-zero input over a one-year horizon.  Expense 0
survives, the seeded upper end 1000 depletes, and the solved spending is
within 1/2 of the final lower bound. -/
theorem claim5_witness :
    deplete pZ 1 (solveRrspWForHorizon pZ 1) 0 = false ∧
    deplete pZ 1 (solveRrspWForHorizon pZ 1) (solveHi pZ 1) = true ∧
    |((solvedInitialExpense pZ 1 : ℚ)) - (solvePair pZ 1).1| ≤ 1 / 2 := by
  have hrwZ : solveRrspWForHorizon pZ 1 = 0 := by
    norm_num [solveRrspWForHorizon, solveRRSPWithdrawal, rrspSimulate, rrspSimAux, pZ]
  have hdZ : deplete pZ 1 0 1000 = true := by
    norm_num [deplete, runProjection, runRowsAux, yearStep, yearStepAlloc,
      preRetAlloc, postRetAlloc, clampEps, initState, EPS, pZ]
  have hhiZ : solveHi pZ 1 = 1000 := by
    have hm : max (1000 : ℚ) (sumInit pZ * 2) = 1000 :=
      max_eq_left (by norm_num [sumInit, pZ])
    rw [solveHi, hrwZ, hm, show (64 : Nat) = 63 + 1 from rfl, expandHi_succ,
      if_neg (by simp [hdZ])]
  have hlo : deplete pZ 1 (solveRrspWForHorizon pZ 1) 0 = false := by
    rw [hrwZ]
    norm_num [deplete, runProjection, runRowsAux, yearStep, yearStepAlloc,
      preRetAlloc, postRetAlloc, clampEps, initState, EPS, pZ]
  have hhi : deplete pZ 1 (solveRrspWForHorizon pZ 1) (solveHi pZ 1) = true := by
    rw [hrwZ, hhiZ]
    exact hdZ
  exact ⟨hlo, hhi, (claim5_max_spending pZ 1 hlo hhi).2.2.2.2⟩

end Planner
